import Mathlib

set_option maxRecDepth 10000

/-!
Verification of the VBridger phoneme-driven lip-sync engine
(`packages/lipsync-vbridger`): pose data model, interpolation library,
phoneme pose table, playback-session state machine and the motion-manager
plugin adapter, embedded shallowly over `ℚ`.
-/

namespace VBridger

/-- The 9-channel mouth pose (`PhonemePose` in `animation-core`). -/
structure PhonemePose where
  mouthOpenY : ℚ
  jawOpen : ℚ
  mouthForm : ℚ
  mouthShrug : ℚ
  mouthFunnel : ℚ
  mouthPuckerWiden : ℚ
  mouthPressLipOpen : ℚ
  mouthX : ℚ
  cheekPuffC : ℚ
deriving DecidableEq, Repr

/-- Neutral pose: every channel at rest (`NEUTRAL_POSE`). -/
def NEUTRAL_POSE : PhonemePose :=
  { mouthOpenY := 0, jawOpen := 0, mouthForm := 0, mouthShrug := 0
    mouthFunnel := 0, mouthPuckerWiden := 0, mouthPressLipOpen := 0
    mouthX := 0, cheekPuffC := 0 }

/-- A timed phoneme `{phoneme, startTime, endTime}` (times in seconds). -/
structure TimedPhoneme where
  phoneme : String
  startTime : ℚ
  endTime : ℚ
deriving DecidableEq, Repr

/-- JS `Math.max(0, Math.min(1, t))`, the clamp used by the interpolation
functions. -/
def clamp01 (t : ℚ) : ℚ := max 0 (min 1 t)

/-- Function `easeInOutQuad` from `interpolation.ts`: clamp `t` to `[0,1]`, then
`2t²` below `0.5`, else `1 - (-2t+2)²/2`. -/
def easeInOutQuad (t0 : ℚ) : ℚ :=
  let t := clamp01 t0
  if t < 0.5 then 2 * t * t else 1 - (-2 * t + 2) ^ 2 / 2

/-- Function `lerp` from `interpolation.ts`: linear interpolation with the factor
clamped to `[0,1]`. -/
def lerp (a b t0 : ℚ) : ℚ :=
  let t := clamp01 t0
  a + (b - a) * t

/-- Function `lerpPose` from `interpolation.ts`: channelwise `lerp` (each inner
`lerp` re-clamps the same factor). -/
def lerpPose (a b : PhonemePose) (t : ℚ) : PhonemePose :=
  { mouthOpenY := lerp a.mouthOpenY b.mouthOpenY t
    jawOpen := lerp a.jawOpen b.jawOpen t
    mouthForm := lerp a.mouthForm b.mouthForm t
    mouthShrug := lerp a.mouthShrug b.mouthShrug t
    mouthFunnel := lerp a.mouthFunnel b.mouthFunnel t
    mouthPuckerWiden := lerp a.mouthPuckerWiden b.mouthPuckerWiden t
    mouthPressLipOpen := lerp a.mouthPressLipOpen b.mouthPressLipOpen t
    mouthX := lerp a.mouthX b.mouthX t
    cheekPuffC := lerp a.cheekPuffC b.cheekPuffC t }

/-- Function `smoothPoseToTarget` from `interpolation.ts`: every channel moves by
`lerp` with factor `smoothFactor * deltaTime`, except cheek puff which
decays toward `0` with factor `(cheekPuffDecayFactor ?? smoothFactor) *
deltaTime` when the target cheek value is at or below `neutralThreshold`. -/
def smoothPoseToTarget (current target : PhonemePose)
    (smoothFactor deltaTime : ℚ) (cheekPuffDecayFactor : Option ℚ)
    (neutralThreshold : ℚ) : PhonemePose :=
  let factor := smoothFactor * deltaTime
  let newCheekPuff :=
    if target.cheekPuffC > neutralThreshold then
      lerp current.cheekPuffC target.cheekPuffC factor
    else
      let decayFactor := (cheekPuffDecayFactor.getD smoothFactor) * deltaTime
      lerp current.cheekPuffC 0 decayFactor
  { mouthOpenY := lerp current.mouthOpenY target.mouthOpenY factor
    jawOpen := lerp current.jawOpen target.jawOpen factor
    mouthForm := lerp current.mouthForm target.mouthForm factor
    mouthShrug := lerp current.mouthShrug target.mouthShrug factor
    mouthFunnel := lerp current.mouthFunnel target.mouthFunnel factor
    mouthPuckerWiden := lerp current.mouthPuckerWiden target.mouthPuckerWiden factor
    mouthPressLipOpen := lerp current.mouthPressLipOpen target.mouthPressLipOpen factor
    mouthX := lerp current.mouthX target.mouthX factor
    cheekPuffC := newCheekPuff }

/-- The static phoneme-to-pose table `PHONEME_MAP` from `phoneme-map.ts`,
as the key-lookup function a JS object gives. Channel order of each
entry: mouthOpenY, jawOpen, mouthForm, mouthShrug, mouthFunnel,
mouthPuckerWiden, mouthPressLipOpen, mouthX, cheekPuffC. -/
def PHONEME_MAP : String → Option PhonemePose
  | "SIL" => some NEUTRAL_POSE
  | "b" => some ⟨0, 0, 0, 0, 0, 0, -1.0, 0, 0.6⟩
  | "p" => some ⟨0, 0, 0, 0, 0, 0, -1.0, 0, 0.8⟩
  | "d" => some ⟨0.05, 0.05, 0, 0, 0, 0, 0.0, 0, 0.2⟩
  | "t" => some ⟨0.05, 0.05, 0, 0, 0, 0, 0.0, 0, 0.3⟩
  | "ɡ" => some ⟨0.1, 0.15, 0, 0, 0, 0, 0.2, 0, 0.5⟩
  | "k" => some ⟨0.1, 0.15, 0, 0, 0, 0, 0.2, 0, 0.4⟩
  | "f" => some ⟨0.05, 0, -0.2, 0, 0, -0.1, -0.2, 0, 0⟩
  | "v" => some ⟨0.05, 0, -0.2, 0, 0, -0.1, -0.1, 0, 0⟩
  | "s" => some ⟨0, 0.0, 0.3, 0, 0, -0.6, 0.9, 0, 0⟩
  | "z" => some ⟨0, 0.0, 0.2, 0, 0, -0.5, 0.8, 0, 0⟩
  | "h" => some ⟨0.2, 0.2, 0, 0, 0, 0, 0.5, 0, 0⟩
  | "ʃ" => some ⟨0.1, 0, 0, 0, 0.9, 0.6, 0.2, 0, 0⟩
  | "ʒ" => some ⟨0.1, 0, 0, 0, 0.8, 0.5, 0.2, 0, 0⟩
  | "ð" => some ⟨0.05, 0, 0, 0, 0, -0.2, 0.1, 0, 0⟩
  | "θ" => some ⟨0.05, 0, 0, 0, 0, -0.3, 0.2, 0, 0⟩
  | "m" => some ⟨0, 0, 0, 0, 0, 0, -1.0, 0, 0⟩
  | "n" => some ⟨0.05, 0.05, 0, 0, 0, 0, 0.0, 0, 0⟩
  | "ŋ" => some ⟨0.15, 0.2, 0, 0, 0, 0, 0.4, 0, 0⟩
  | "l" => some ⟨0.2, 0.2, 0, 0, 0, -0.3, 0.6, 0, 0⟩
  | "ɹ" => some ⟨0.15, 0.15, 0, 0, 0.4, 0.2, 0.3, 0, 0⟩
  | "w" => some ⟨0.1, 0.1, 0, 0, 1.0, 0.9, -0.3, 0, 0⟩
  | "j" => some ⟨0.1, 0.1, 0.6, 0.3, 0, -0.8, 0.8, 0, 0⟩
  | "ʤ" => some ⟨0.1, 0, 0, 0, 0.8, 0.5, 0.2, 0, 0.3⟩
  | "ʧ" => some ⟨0.1, 0, 0, 0, 0.9, 0.6, 0.2, 0, 0.4⟩
  | "ə" => some ⟨0.3, 0.3, 0, 0, 0, 0, 0.5, 0, 0⟩
  | "i" => some ⟨0.1, 0.1, 0.7, 0.4, 0, -0.9, 0.9, 0, 0⟩
  | "u" => some ⟨0.15, 0.15, 0, 0, 1.0, 1.0, -0.2, 0, 0⟩
  | "ɑ" => some ⟨0.9, 1.0, 0, 0, 0, 0, 0.8, 0, 0⟩
  | "ɔ" => some ⟨0.6, 0.7, 0, 0, 0.5, 0.3, 0.7, 0, 0⟩
  | "ɛ" => some ⟨0.5, 0.5, 0, 0, 0, -0.5, 0.7, 0, 0⟩
  | "ɜ" => some ⟨0.4, 0.4, 0, 0, 0, 0, 0.6, 0, 0⟩
  | "ɪ" => some ⟨0.2, 0.2, 0.2, 0, 0, -0.6, 0.8, 0, 0⟩
  | "ʊ" => some ⟨0.2, 0.2, 0, 0, 0.8, 0.7, 0.1, 0, 0⟩
  | "ʌ" => some ⟨0.6, 0.6, 0, 0, 0, 0, 0.7, 0, 0⟩
  | "A" => some ⟨0.3, 0.3, 0.4, 0, 0, -0.7, 0.8, 0, 0⟩
  | "I" => some ⟨0.4, 0.4, 0.3, 0, 0, -0.6, 0.8, 0, 0⟩
  | "W" => some ⟨0.3, 0.3, 0, 0, 0.9, 0.8, 0.0, 0, 0⟩
  | "Y" => some ⟨0.3, 0.3, 0.2, 0, 0, -0.5, 0.8, 0, 0⟩
  | "oʊ" => some ⟨0.3, 0.3, 0, 0, 0.8, 0.6, 0.1, 0, 0⟩
  | "aɪ" => some ⟨0.4, 0.4, 0.3, 0, 0, -0.6, 0.8, 0, 0⟩
  | "aʊ" => some ⟨0.3, 0.3, 0, 0, 0.9, 0.8, 0.0, 0, 0⟩
  | "eɪ" => some ⟨0.3, 0.3, 0.4, 0, 0, -0.7, 0.8, 0, 0⟩
  | "ɔɪ" => some ⟨0.3, 0.3, 0.2, 0, 0, -0.5, 0.8, 0, 0⟩
  | "ᵊ" => some ⟨0.1, 0.1, 0, 0, 0, 0, 0.2, 0, 0⟩
  | "æ" => some ⟨0.7, 0.7, 0.3, 0, 0, -0.8, 0.9, 0, 0⟩
  | "O" => some ⟨0.3, 0.3, 0, 0, 0.8, 0.6, 0.1, 0, 0⟩
  | "ᵻ" => some ⟨0.15, 0.15, 0, 0, 0, -0.2, 0.6, 0, 0⟩
  | "ɾ" => some ⟨0.05, 0.05, 0, 0, 0, 0, 0.3, 0, 0⟩
  | "a" => some ⟨0.7, 0.7, 0, 0, 0, -0.4, 0.8, 0, 0⟩
  | "Q" => some ⟨0.3, 0.3, 0, 0, 0.7, 0.5, 0.1, 0, 0⟩
  | "ɒ" => some ⟨0.8, 0.9, 0, 0, 0.2, 0.1, 0.8, 0, 0⟩
  | _ => none

/-- Function `getPoseForPhoneme` from `phoneme-map.ts`: `PHONEME_MAP[phoneme] ??
NEUTRAL_POSE`. -/
def getPoseForPhoneme (phoneme : String) : PhonemePose :=
  (PHONEME_MAP phoneme).getD NEUTRAL_POSE

/-- Function `hasPhonemeMapping` from `phoneme-map.ts`: `phoneme in PHONEME_MAP`. -/
def hasPhonemeMapping (phoneme : String) : Bool :=
  (PHONEME_MAP phoneme).isSome

/-- Loop body of `VBridgerService.findActivePhonemes`: `prev` is
`timedPhonemes[i-1]` (or `null` at the first iteration); after the loop
the function returns the last element (or `null`) as `current`. -/
def findActiveAux (currentTime : ℚ) (prev : Option TimedPhoneme) :
    List TimedPhoneme → Option TimedPhoneme × Option TimedPhoneme
  | [] => (prev, none)
  | p :: rest =>
    if currentTime ≥ p.startTime ∧ currentTime < p.endTime then
      (some p, rest.head?)
    else if currentTime < p.startTime then
      (prev, some p)
    else
      findActiveAux currentTime (some p) rest

/-- Method `VBridgerService.findActivePhonemes`. -/
def findActivePhonemes (currentTime : ℚ) (timedPhonemes : List TimedPhoneme) :
    Option TimedPhoneme × Option TimedPhoneme :=
  findActiveAux currentTime none timedPhonemes

/-- Body of `VBridgerService.calculateTargetPose` once the elapsed audio
time `currentTime` (seconds) is known: neutral with no current phoneme,
the current phoneme's pose verbatim with no next phoneme, and otherwise
an eased blend with factor `(currentTime - current.startTime) /
(next.startTime - current.startTime)`. -/
def calculateTargetPoseAt (currentTime : ℚ)
    (timedPhonemes : List TimedPhoneme) : PhonemePose :=
  match findActivePhonemes currentTime timedPhonemes with
  | (none, _) => NEUTRAL_POSE
  | (some current, none) => getPoseForPhoneme current.phoneme
  | (some current, some next) =>
    let currentPose := getPoseForPhoneme current.phoneme
    let nextPose := getPoseForPhoneme next.phoneme
    let phonemeDuration := next.startTime - current.startTime
    let timeInPhoneme := currentTime - current.startTime
    let rawT := timeInPhoneme / phonemeDuration
    let t := easeInOutQuad rawT
    lerpPose currentPose nextPose t

/-- The operands `(timeInPhoneme, phonemeDuration)` of the division
`rawT = timeInPhoneme / phonemeDuration` in
`VBridgerService.calculateTargetPose`, produced exactly when the code
reaches that division (a current and a next phoneme both exist); `none`
when the code returns before dividing. -/
def interpolationDivision (currentTime : ℚ)
    (timedPhonemes : List TimedPhoneme) : Option (ℚ × ℚ) :=
  match findActivePhonemes currentTime timedPhonemes with
  | (some current, some next) =>
    some (currentTime - current.startTime, next.startTime - current.startTime)
  | _ => none

/-- Structure `AudioPlaybackState` from `vbridger-service.ts`: `startTime` is the
`performance.now()` millisecond timestamp recorded for the session. -/
structure AudioPlaybackState where
  isPlaying : Bool
  startTime : ℚ
  audioDuration : ℚ
  timedPhonemes : List TimedPhoneme
deriving DecidableEq, Repr

/-- Which of the two timing providers a `prepare` call ends up using. -/
inductive SelectedProvider where
  | primary
  | fallback
deriving DecidableEq, Repr

/-- The mutable fields and configuration of `VBridgerService`. The two
provider handles are abstracted to the one bit the service branches on:
whether `fallbackProvider` has been set. -/
structure ServiceState where
  hasFallbackProvider : Bool
  useAccurateProvider : Bool
  currentPose : PhonemePose
  targetPose : PhonemePose
  playbackState : Option AudioPlaybackState
  isPaused : Bool
  smoothingFactor : ℚ
  neutralReturnFactor : ℚ
  cheekPuffDecayFactor : ℚ
  neutralThreshold : ℚ
deriving DecidableEq, Repr

/-- A fresh `VBridgerService` with the default configuration constants
of `types.ts` (`VBRIDGER_CONFIG`). -/
def initialService (hasFallback : Bool) : ServiceState :=
  { hasFallbackProvider := hasFallback
    useAccurateProvider := true
    currentPose := NEUTRAL_POSE
    targetPose := NEUTRAL_POSE
    playbackState := none
    isPaused := false
    smoothingFactor := 35.0
    neutralReturnFactor := 15.0
    cheekPuffDecayFactor := 80.0
    neutralThreshold := 0.02 }

/-- Provider choice made at the top of `VBridgerService.onTtsAudioReady`:
`useAccurateProvider && fallbackProvider ? timingProvider :
fallbackProvider ?? timingProvider`. -/
def selectProvider (s : ServiceState) : SelectedProvider :=
  if s.useAccurateProvider ∧ s.hasFallbackProvider then .primary
  else if s.hasFallbackProvider then .fallback
  else .primary

/-- Method `VBridgerService.onTtsAudioReady` with the awaited provider call made
explicit: on a rejected `getTimedPhonemes` no field has been assigned yet
and none is assigned after, so the state is returned unchanged (the
promise rejects to the caller); on success the playback state is replaced
with `isPlaying: true` and `startTime` stamped at the ready instant
(`now` is the `performance.now()` value, in milliseconds). -/
def onTtsAudioReady (s : ServiceState) (now audioDuration : ℚ)
    (providerResult : Except String (List TimedPhoneme)) : ServiceState :=
  match providerResult with
  | .error _ => s
  | .ok timedPhonemes =>
    let ps : AudioPlaybackState :=
      { isPlaying := true, startTime := now
        audioDuration := audioDuration, timedPhonemes := timedPhonemes }
    { s with playbackState := some ps }

/-- Method `VBridgerService.onTtsAudioStart`: if a session exists, re-stamp
`startTime` and set `isPlaying`; otherwise do nothing. -/
def onTtsAudioStart (s : ServiceState) (now : ℚ) : ServiceState :=
  match s.playbackState with
  | some ps => { s with playbackState := some { ps with startTime := now, isPlaying := true } }
  | none => s

/-- Method `VBridgerService.onTtsAudioEnd`: drop the session if one exists. -/
def onTtsAudioEnd (s : ServiceState) : ServiceState :=
  match s.playbackState with
  | some _ => { s with playbackState := none }
  | none => s

/-- Method `VBridgerService.isActive`: `playbackState?.isPlaying ?? false`. -/
def isActive (s : ServiceState) : Bool :=
  match s.playbackState with
  | some ps => ps.isPlaying
  | none => false

/-- Method `VBridgerService.useAccurateTiming`: only acts when a fallback
provider has been set. -/
def useAccurateTiming (s : ServiceState) : ServiceState :=
  if s.hasFallbackProvider then { s with useAccurateProvider := true } else s

/-- Method `VBridgerService.useFallbackEstimation`: only acts when a fallback
provider has been set. -/
def useFallbackEstimation (s : ServiceState) : ServiceState :=
  if s.hasFallbackProvider then { s with useAccurateProvider := false } else s

/-- Method `VBridgerService.setFallbackProvider`. -/
def setFallbackProvider (s : ServiceState) : ServiceState :=
  { s with hasFallbackProvider := true }

/-- Method `VBridgerService.calculateTargetPose` for a session: elapsed audio
time is `(performance.now() - startTime) / 1000` seconds. -/
def calculateTargetPose (ps : AudioPlaybackState) (now : ℚ) : PhonemePose :=
  calculateTargetPoseAt ((now - ps.startTime) / 1000) ps.timedPhonemes

/-- Method `VBridgerService.update`: skip when paused, recompute the target
(neutral unless a session is playing), then smooth the current pose
toward it with `smoothingFactor` while playing and `neutralReturnFactor`
otherwise, always passing `cheekPuffDecayFactor`. -/
def update (s : ServiceState) (now deltaTime : ℚ) : ServiceState :=
  if s.isPaused then s
  else
    let targetPose :=
      match s.playbackState with
      | some ps => if ps.isPlaying then calculateTargetPose ps now else NEUTRAL_POSE
      | none => NEUTRAL_POSE
    let factor := if isActive s then s.smoothingFactor else s.neutralReturnFactor
    let currentPose :=
      smoothPoseToTarget s.currentPose targetPose factor deltaTime
        (some s.cheekPuffDecayFactor) s.neutralThreshold
    { s with targetPose := targetPose, currentPose := currentPose }

/-- Local state of the plugin closure returned by
`useMotionUpdatePluginLipSyncVBridger` in `plugin.ts`. -/
structure PluginState where
  service : ServiceState
  lastTtsText : String
  lastTtsAudioDuration : ℚ
  lastTtsIsPlaying : Bool
  audioReady : Bool
  lastUpdateTime : ℚ
deriving DecidableEq, Repr

/-- The per-frame context fields of `MotionManagerPluginContext` the
plugin reads, plus the `performance.now()` clock (milliseconds) the
service reads on the same frame. -/
structure FrameCtx where
  now : ℚ
  perfNow : ℚ
  handled : Bool
  isIdleMotion : Bool
deriving DecidableEq, Repr

/-- The reactive ref values the plugin reads on a frame (after their
`?? `-defaults have been applied). -/
structure FrameInputs where
  ttsText : String
  ttsAudioDuration : ℚ
  ttsIsPlaying : Bool
  enabled : Bool
deriving DecidableEq, Repr

/-- Everything the plugin callback does to its host on one frame: the
`setParameterValueById` calls in order, and whether `markHandled` or
`motionManager.stopAllMotions` was called; `prepareRequested` records
that an (asynchronous) `onTtsAudioReady` call was started. -/
structure FrameEffects where
  writes : List (String × ℚ)
  markHandledCalled : Bool
  stopAllMotionsCalled : Bool
  prepareRequested : Bool
deriving DecidableEq, Repr

/-- A frame with no host-visible effect. -/
def noEffects : FrameEffects :=
  { writes := [], markHandledCalled := false
    stopAllMotionsCalled := false, prepareRequested := false }

/-- The nine Live2D parameter ids of `VBRIDGER_PARAM_NAMES` in
`types.ts` — the only mouth channels the plugin may write. -/
def vbridgerParamNames : List String :=
  ["ParamMouthOpenY", "ParamJawOpen", "ParamMouthForm", "ParamMouthShrug",
   "ParamMouthFunnel", "ParamMouthPuckerWiden", "ParamMouthPressLipOpen",
   "ParamMouthX", "ParamCheekPuffC"]

/-- The nine `setParameterValueById` writes of lines 283-291 of
`plugin.ts`, in source order. -/
def poseWrites (pose : PhonemePose) : List (String × ℚ) :=
  [("ParamMouthOpenY", pose.mouthOpenY),
   ("ParamJawOpen", pose.jawOpen),
   ("ParamMouthForm", pose.mouthForm),
   ("ParamMouthShrug", pose.mouthShrug),
   ("ParamMouthFunnel", pose.mouthFunnel),
   ("ParamMouthPuckerWiden", pose.mouthPuckerWiden),
   ("ParamMouthPressLipOpen", pose.mouthPressLipOpen),
   ("ParamMouthX", pose.mouthX),
   ("ParamCheekPuffC", pose.cheekPuffC)]

/-- One invocation of the plugin callback of
`useMotionUpdatePluginLipSyncVBridger`. The asynchronous
`onTtsAudioReady` promise started by the new-audio branch resolves after
the frame, so within the frame it only updates `lastTtsText` and
`lastTtsAudioDuration` and is reported in `prepareRequested`. -/
def pluginFrame (p0 : PluginState) (ctx : FrameCtx) (inp : FrameInputs) :
    PluginState × FrameEffects :=
  let p1 := { p0 with lastUpdateTime := ctx.now }
  let deltaTime := if p0.lastUpdateTime > 0 then ctx.now - p0.lastUpdateTime else 0.016
  if ¬inp.enabled ∨ ctx.handled then (p1, noEffects)
  else
    let isActiveNow := isActive p1.service
    if ¬(isActiveNow = true) ∧ ¬(ctx.isIdleMotion = true) then (p1, noEffects)
    else
      let prepareRequested :=
        (inp.ttsText ≠ p1.lastTtsText ∨ inp.ttsAudioDuration ≠ p1.lastTtsAudioDuration)
          ∧ inp.ttsText ≠ "" ∧ inp.ttsAudioDuration > 0
      let p2 :=
        if prepareRequested then
          { p1 with lastTtsText := inp.ttsText, lastTtsAudioDuration := inp.ttsAudioDuration }
        else p1
      let p3 :=
        if inp.ttsIsPlaying ∧ ¬(p2.lastTtsIsPlaying = true) ∧ p2.audioReady then
          { p2 with service := onTtsAudioStart p2.service ctx.perfNow }
        else p2
      let p4 :=
        if ¬(inp.ttsIsPlaying = true) ∧ p3.lastTtsIsPlaying then
          { p3 with service := onTtsAudioEnd p3.service, audioReady := false }
        else p3
      let p5 := { p4 with lastTtsIsPlaying := inp.ttsIsPlaying }
      let p6 := { p5 with service := update p5.service ctx.perfNow deltaTime }
      let pose := p6.service.currentPose
      if isActiveNow then
        (p6, { writes := poseWrites pose, markHandledCalled := false
               stopAllMotionsCalled := false, prepareRequested := decide prepareRequested })
      else
        (p6, { noEffects with prepareRequested := decide prepareRequested })

/-- Result of the resolution of one `onTtsAudioReady` promise as wired
up by the plugin (`.then` sets `audioReady`; `.catch` logs the error and
does not rethrow). -/
structure PrepareOutcome where
  service : ServiceState
  audioReady : Bool
  errorLogged : Bool
  propagatedToCaller : Bool
deriving DecidableEq, Repr

/-- The plugin's `vbridger.onTtsAudioReady(...).then(...).catch(...)`
chain of lines 234-240 of `plugin.ts`, at the instant the provider
promise settles. -/
def pluginPrepare (service : ServiceState) (audioReady : Bool)
    (now audioDuration : ℚ)
    (providerResult : Except String (List TimedPhoneme)) : PrepareOutcome :=
  match providerResult with
  | .error _ =>
    { service := onTtsAudioReady service now audioDuration providerResult
      audioReady := audioReady
      errorLogged := true
      propagatedToCaller := false }
  | .ok _ =>
    { service := onTtsAudioReady service now audioDuration providerResult
      audioReady := true
      errorLogged := false
      propagatedToCaller := false }

/-! Helper lemmas about the clamp and the interpolation primitives. -/

lemma clamp01_nonneg (t : ℚ) : 0 ≤ clamp01 t := le_max_left 0 _

lemma clamp01_le_one (t : ℚ) : clamp01 t ≤ 1 :=
  max_le (by norm_num) (min_le_left _ _)

lemma clamp01_mono {a b : ℚ} (h : a ≤ b) : clamp01 a ≤ clamp01 b :=
  max_le_max le_rfl (min_le_min le_rfl h)

lemma clamp01_sub_le {a b : ℚ} (h : a ≤ b) : clamp01 b - clamp01 a ≤ b - a := by
  simp only [clamp01, max_def, min_def]
  split_ifs <;> linarith

lemma clamp01_pos {f : ℚ} (hf : 0 < f) : 0 < clamp01 f :=
  lt_max_of_lt_right (lt_min (by norm_num) hf)

lemma clamp01_eq_self {c : ℚ} (h0 : 0 ≤ c) (h1 : c ≤ 1) : clamp01 c = c := by
  unfold clamp01
  rw [min_eq_right h1, max_eq_right h0]

lemma lerp_eq (a b t : ℚ) : lerp a b t = a + (b - a) * clamp01 t := rfl

lemma lerp_mem (a b t : ℚ) : min a b ≤ lerp a b t ∧ lerp a b t ≤ max a b := by
  have h0 := clamp01_nonneg t
  have h1 := clamp01_le_one t
  rw [lerp_eq]
  rcases le_total a b with hab | hab
  · rw [min_eq_left hab, max_eq_right hab]
    constructor <;> nlinarith
  · rw [min_eq_right hab, max_eq_left hab]
    constructor <;> nlinarith

lemma lerp_closer {a b f : ℚ} (hf : 0 < f) (hne : a ≠ b) :
    |lerp a b f - b| < |a - b| := by
  have hc0 : 0 < clamp01 f := clamp01_pos hf
  have hc1 : clamp01 f ≤ 1 := clamp01_le_one f
  have hrw : lerp a b f - b = (a - b) * (1 - clamp01 f) := by
    rw [lerp_eq]; ring
  have hab : 0 < |a - b| := abs_pos.mpr (sub_ne_zero.mpr hne)
  have habs : |1 - clamp01 f| < 1 := by
    rw [abs_of_nonneg (by linarith)]
    linarith
  calc |lerp a b f - b| = |a - b| * |1 - clamp01 f| := by rw [hrw, abs_mul]
    _ < |a - b| * 1 := by exact mul_lt_mul_of_pos_left habs hab
    _ = |a - b| := mul_one _

/-- What one smoothing step owes a channel whose value moves from `c`
toward `t` and lands at `n`: strictly closer to `t` unless already there,
and inside the closed interval between `c` and `t`. -/
def channelStep (c t n : ℚ) : Prop :=
  (c ≠ t → |n - t| < |c - t|) ∧ min c t ≤ n ∧ n ≤ max c t

lemma lerp_channelStep {c t f : ℚ} (hf : 0 < f) : channelStep c t (lerp c t f) :=
  ⟨fun hne => lerp_closer hf hne, (lerp_mem c t f).1, (lerp_mem c t f).2⟩

/-! Helper lemmas about `easeInOutQuad`. -/

lemma easeInOutQuad_clamp (t : ℚ) : easeInOutQuad t = easeInOutQuad (clamp01 t) := by
  unfold easeInOutQuad
  rw [clamp01_eq_self (clamp01_nonneg t) (clamp01_le_one t)]

lemma easeInOutQuad_mono {a b : ℚ} (h : a ≤ b) :
    easeInOutQuad a ≤ easeInOutQuad b := by
  have hx0 := clamp01_nonneg a
  have hx1 := clamp01_le_one a
  have hy0 := clamp01_nonneg b
  have hy1 := clamp01_le_one b
  have hxy := clamp01_mono h
  unfold easeInOutQuad
  dsimp only
  set x := clamp01 a with hxdef
  set y := clamp01 b with hydef
  clear_value x y
  split_ifs with h1 h2 h2
  · nlinarith
  · nlinarith [sq_nonneg (1 - y), sq_nonneg x, sq_nonneg (2 * x - 1), sq_nonneg (2 * y - 2)]
  · norm_num at h1 h2
    linarith
  · nlinarith [sq_nonneg (2 - x - y)]

lemma easeInOutQuad_lip_of_le {a b : ℚ} (h : a ≤ b) :
    easeInOutQuad b - easeInOutQuad a ≤ 2 * (b - a) := by
  have hx0 := clamp01_nonneg a
  have hx1 := clamp01_le_one a
  have hy0 := clamp01_nonneg b
  have hy1 := clamp01_le_one b
  have hxy := clamp01_mono h
  have hsub := clamp01_sub_le h
  unfold easeInOutQuad
  dsimp only
  set x := clamp01 a with hxdef
  set y := clamp01 b with hydef
  clear_value x y
  split_ifs with h1 h2 h2
  · nlinarith
  · norm_num at h1 h2
    linarith
  · nlinarith [sq_nonneg (y - 1 / 2), sq_nonneg (x - 1 / 2), hsub]
  · nlinarith

/-! Well-formed timed phoneme sequences (the data-model invariant:
`startTime < endTime` per phoneme, consecutive phonemes do not overlap)
and how `findActiveAux` scans them. -/

/-- A timed phoneme sequence is well formed when every phoneme has
`startTime < endTime` and consecutive phonemes satisfy
`endTime ≤ startTime` of the successor. -/
def seqWFb : List TimedPhoneme → Bool
  | [] => true
  | [p] => decide (p.startTime < p.endTime)
  | p :: q :: rest =>
    (decide (p.startTime < p.endTime) && decide (p.endTime ≤ q.startTime))
      && seqWFb (q :: rest)

lemma seqWFb_pair {p q : TimedPhoneme} {rest : List TimedPhoneme} :
    seqWFb (p :: q :: rest) = true ↔
      p.startTime < p.endTime ∧ p.endTime ≤ q.startTime ∧ seqWFb (q :: rest) = true := by
  simp [seqWFb, Bool.and_eq_true, decide_eq_true_eq, and_assoc]

lemma seqWFb_head_lt {p : TimedPhoneme} {rest : List TimedPhoneme}
    (h : seqWFb (p :: rest) = true) : p.startTime < p.endTime := by
  cases rest with
  | nil => simpa [seqWFb, decide_eq_true_eq] using h
  | cons q rest' => exact (seqWFb_pair.mp h).1

lemma seqWFb_tail {p q : TimedPhoneme} {rest : List TimedPhoneme}
    (h : seqWFb (p :: q :: rest) = true) : seqWFb (q :: rest) = true :=
  (seqWFb_pair.mp h).2.2

lemma wf_before : ∀ (l₁ : List TimedPhoneme) (cur : TimedPhoneme)
    (rest : List TimedPhoneme), seqWFb (l₁ ++ cur :: rest) = true →
    ∀ p ∈ l₁, p.endTime ≤ cur.startTime := by
  intro l₁
  induction l₁ with
  | nil => intro cur rest _ p hp; cases hp
  | cons a t ih =>
    intro cur rest h p hp
    cases t with
    | nil =>
      rcases List.mem_singleton.mp hp with rfl
      exact (seqWFb_pair.mp h).2.1
    | cons b t' =>
      have h' := seqWFb_pair.mp h
      rcases List.mem_cons.mp hp with rfl | hp'
      · have hb : b.endTime ≤ cur.startTime :=
          ih cur rest h'.2.2 b (List.mem_cons_self b t')
        have hblt : b.startTime < b.endTime := seqWFb_head_lt h'.2.2
        linarith [h'.2.1]
      · exact ih cur rest h'.2.2 p hp'

lemma wf_mem_lt : ∀ (l : List TimedPhoneme), seqWFb l = true →
    ∀ p ∈ l, p.startTime < p.endTime := by
  intro l
  induction l with
  | nil => intro _ p hp; cases hp
  | cons a t ih =>
    intro h p hp
    rcases List.mem_cons.mp hp with rfl | hp'
    · exact seqWFb_head_lt h
    · cases t with
      | nil => cases hp'
      | cons b t' => exact ih (seqWFb_tail h) p hp'

lemma findActiveAux_skip {ct : ℚ} : ∀ (l : List TimedPhoneme)
    (prev : Option TimedPhoneme) (lastP : TimedPhoneme),
    (∀ p ∈ l ++ [lastP], p.startTime ≤ ct ∧ p.endTime ≤ ct) →
    findActiveAux ct prev (l ++ [lastP]) = (some lastP, none) := by
  intro l
  induction l with
  | nil =>
    intro prev lastP h
    have hl := h lastP (List.mem_singleton_self lastP)
    simp only [List.nil_append, findActiveAux]
    rw [if_neg (by push_neg; intro _; linarith [hl.2]),
        if_neg (by push_neg; linarith [hl.1, hl.2])]
  | cons a t ih =>
    intro prev lastP h
    have ha := h a (by simp)
    simp only [List.cons_append, findActiveAux]
    rw [if_neg (by push_neg; intro _; linarith [ha.2]),
        if_neg (by push_neg; linarith [ha.1, ha.2])]
    exact ih (some a) lastP (fun p hp => h p (by simp [hp]))

lemma findActiveAux_middle {ct : ℚ} : ∀ (l₁ : List TimedPhoneme)
    (prev : Option TimedPhoneme) (cur nxt : TimedPhoneme)
    (l₂ : List TimedPhoneme),
    (∀ p ∈ l₁, p.startTime ≤ ct ∧ p.endTime ≤ ct) →
    cur.startTime ≤ ct → ct < nxt.startTime →
    findActiveAux ct prev (l₁ ++ cur :: nxt :: l₂) = (some cur, some nxt) := by
  intro l₁
  induction l₁ with
  | nil =>
    intro prev cur nxt l₂ _ hcs hnxt
    simp only [List.nil_append, findActiveAux]
    by_cases hce : ct < cur.endTime
    · rw [if_pos ⟨hcs, hce⟩]
      rfl
    · rw [if_neg (by push_neg; intro _; linarith),
          if_neg (by push_neg; exact hcs)]
      show findActiveAux ct (some cur) (nxt :: l₂) = (some cur, some nxt)
      simp only [findActiveAux]
      rw [if_neg (by push_neg; intro hge; linarith), if_pos hnxt]
  | cons a t ih =>
    intro prev cur nxt l₂ h hcs hnxt
    have ha := h a (by simp)
    simp only [List.cons_append, findActiveAux]
    rw [if_neg (by push_neg; intro _; linarith [ha.2]),
        if_neg (by push_neg; linarith [ha.1, ha.2])]
    exact ih (some a) cur nxt l₂ (fun p hp => h p (by simp [hp])) hcs hnxt

/-! Claim theorems. -/

/-- C1 (counterexample): the claim fails on the code. Starting from a
fresh service, as soon as `onTtsAudioReady` resolves the session is
already marked playing (`isActive` reports `true`), `startTime` is
already stamped with the ready instant `1000`, and a second ready event
replaces the session immediately even though no start event fired in
between. -/
theorem C1_counterexample :
    isActive (onTtsAudioReady (initialService false) 1000 0.25
        (.ok [⟨"m", 0, 0.1⟩, ⟨"i", 0.1, 0.25⟩])) = true
    ∧ (onTtsAudioReady (initialService false) 1000 0.25
        (.ok [⟨"m", 0, 0.1⟩, ⟨"i", 0.1, 0.25⟩])).playbackState
        = some ⟨true, 1000, 0.25, [⟨"m", 0, 0.1⟩, ⟨"i", 0.1, 0.25⟩]⟩
    ∧ (onTtsAudioReady (onTtsAudioReady (initialService false) 1000 0.25
        (.ok [⟨"m", 0, 0.1⟩, ⟨"i", 0.1, 0.25⟩])) 2000 0.3
        (.ok [⟨"SIL", 0, 0.3⟩])).playbackState
        = some ⟨true, 2000, 0.3, [⟨"SIL", 0, 0.3⟩]⟩ :=
  ⟨rfl, rfl, rfl⟩

/-- C1 (amended): a resolved `onTtsAudioReady` immediately marks the
session playing with `startTime` stamped at the ready instant, so
`isActive` is `true` before any start event; `onTtsAudioStart` only
re-stamps `startTime`; and a later ready event replaces the session
unconditionally, without waiting for a start event. -/
theorem C1_ready_marks_playing (s : ServiceState) (now dur now₂ : ℚ)
    (ph : List TimedPhoneme) :
    isActive (onTtsAudioReady s now dur (.ok ph)) = true
    ∧ (onTtsAudioReady s now dur (.ok ph)).playbackState
        = some ⟨true, now, dur, ph⟩
    ∧ (onTtsAudioStart (onTtsAudioReady s now dur (.ok ph)) now₂).playbackState
        = some ⟨true, now₂, dur, ph⟩
    ∧ ∀ now₃ dur₂ ph₂,
        (onTtsAudioReady (onTtsAudioReady s now dur (.ok ph)) now₃ dur₂
            (.ok ph₂)).playbackState
          = some ⟨true, now₃, dur₂, ph₂⟩ :=
  ⟨rfl, rfl, rfl, fun _ _ _ => rfl⟩

/-- C3: evaluation of the code at the failing input. The sequence
`[{ɑ,0,0.1}, {b,0,0}]` contains the zero-duration phoneme `b`
(`startTime = endTime`), and at elapsed time `0` the target-pose
computation reaches the interpolation division with numerator `0` and
denominator `next.startTime - current.startTime = 0`: there is no guard,
so in JavaScript `rawT = 0/0 = NaN` and the returned pose is NaN on every
channel, contradicting the claim. -/
theorem C3_zero_duration_division :
    (⟨"b", 0, 0⟩ : TimedPhoneme).startTime = (⟨"b", 0, 0⟩ : TimedPhoneme).endTime
    ∧ interpolationDivision 0 [⟨"ɑ", 0, 0.1⟩, ⟨"b", 0, 0⟩] = some (0, 0) := by
  refine ⟨rfl, ?_⟩
  norm_num [interpolationDivision, findActivePhonemes, findActiveAux]

/-- C5: when the timing provider rejects during prepare, the plugin's
prepare chain leaves the whole service state — in particular
`playbackState`, `currentPose` and `targetPose` — untouched, logs the
error, and does not propagate it to the caller. -/
theorem C5_prepare_error_atomic (service : ServiceState) (audioReady : Bool)
    (now dur : ℚ) (e : String) :
    (pluginPrepare service audioReady now dur (.error e)).service = service
    ∧ (pluginPrepare service audioReady now dur (.error e)).service.playbackState
        = service.playbackState
    ∧ (pluginPrepare service audioReady now dur (.error e)).service.currentPose
        = service.currentPose
    ∧ (pluginPrepare service audioReady now dur (.error e)).service.targetPose
        = service.targetPose
    ∧ (pluginPrepare service audioReady now dur (.error e)).errorLogged = true
    ∧ (pluginPrepare service audioReady now dur (.error e)).propagatedToCaller
        = false :=
  ⟨rfl, rfl, rfl, rfl, rfl, rfl⟩

/-- C7: the cheek-puff channel alone follows the two-branch rule: above
the neutral threshold it converges toward the target with factor
`rate * dt`; at or below the threshold it decays toward zero with factor
`(cheekDecayRate ?? rate) * dt`, independently of the rate used for the
other eight channels. -/
theorem C7_cheek_rule (current target : PhonemePose) (rate dt thr : ℚ)
    (decay : Option ℚ) :
    (thr < target.cheekPuffC →
      (smoothPoseToTarget current target rate dt decay thr).cheekPuffC
        = lerp current.cheekPuffC target.cheekPuffC (rate * dt))
    ∧ (target.cheekPuffC ≤ thr →
      (smoothPoseToTarget current target rate dt decay thr).cheekPuffC
        = lerp current.cheekPuffC 0 ((decay.getD rate) * dt))
    ∧ (target.cheekPuffC ≤ thr → ∀ rate₂ d,
      (smoothPoseToTarget current target rate dt (some d) thr).cheekPuffC
        = (smoothPoseToTarget current target rate₂ dt (some d) thr).cheekPuffC) := by
  unfold smoothPoseToTarget
  dsimp only
  refine ⟨fun h => ?_, fun h => ?_, fun h rate₂ d => ?_⟩
  · rw [if_pos h]
  · rw [if_neg (not_lt.mpr h)]
  · rw [if_neg (not_lt.mpr h), if_neg (not_lt.mpr h)]
    simp [Option.getD]

/-- C7 (witness). -/
theorem C7_cheek_rule_witness :
    (smoothPoseToTarget NEUTRAL_POSE ⟨0, 0, 0, 0, 0, 0, 0, 0, 0.5⟩
        1 1 none 0.02).cheekPuffC
      = lerp NEUTRAL_POSE.cheekPuffC
          (PhonemePose.cheekPuffC ⟨0, 0, 0, 0, 0, 0, 0, 0, 0.5⟩) (1 * 1) :=
  (C7_cheek_rule NEUTRAL_POSE ⟨0, 0, 0, 0, 0, 0, 0, 0, 0.5⟩ 1 1 0.02 none).1
    (by norm_num)

/-- C8: the pose table is a total function with neutral fallback — any
symbol without a mapping resolves to the all-zero neutral pose — and each
aliased IPA digraph / single-letter shorthand pair resolves to
componentwise-identical poses. -/
theorem C8_pose_table (phoneme : String) :
    (hasPhonemeMapping phoneme = false →
      getPoseForPhoneme phoneme = NEUTRAL_POSE)
    ∧ getPoseForPhoneme "aɪ" = getPoseForPhoneme "I"
    ∧ getPoseForPhoneme "aʊ" = getPoseForPhoneme "W"
    ∧ getPoseForPhoneme "eɪ" = getPoseForPhoneme "A"
    ∧ getPoseForPhoneme "ɔɪ" = getPoseForPhoneme "Y"
    ∧ getPoseForPhoneme "oʊ" = getPoseForPhoneme "O" := by
  refine ⟨fun h => ?_, rfl, rfl, rfl, rfl, rfl⟩
  unfold hasPhonemeMapping at h
  unfold getPoseForPhoneme
  cases hop : PHONEME_MAP phoneme with
  | none => rfl
  | some pose =>
    rw [hop] at h
    exact absurd h (by simp)

/-- C8 (witness). -/
theorem C8_pose_table_witness :
    hasPhonemeMapping "xyz" = false
    ∧ getPoseForPhoneme "xyz" = NEUTRAL_POSE :=
  ⟨rfl, (C8_pose_table "xyz").1 rfl⟩

/-- C10: with no fallback provider ever set, both tier-switch operations
are complete no-ops (the state, including the `useAccurateProvider`
flag, is unchanged) and provider selection — also after any subsequent
prepare — always picks the primary timing provider. -/
theorem C10_tier_switch_noop (s : ServiceState)
    (h : s.hasFallbackProvider = false) :
    useAccurateTiming s = s
    ∧ useFallbackEstimation s = s
    ∧ selectProvider s = SelectedProvider.primary
    ∧ selectProvider (useAccurateTiming s) = SelectedProvider.primary
    ∧ selectProvider (useFallbackEstimation s) = SelectedProvider.primary
    ∧ ∀ now dur r, selectProvider (onTtsAudioReady s now dur r)
        = SelectedProvider.primary := by
  have h1 : useAccurateTiming s = s := by simp [useAccurateTiming, h]
  have h2 : useFallbackEstimation s = s := by simp [useFallbackEstimation, h]
  have h3 : selectProvider s = SelectedProvider.primary := by
    simp [selectProvider, h]
  refine ⟨h1, h2, h3, by rw [h1]; exact h3, by rw [h2]; exact h3, ?_⟩
  intro now dur r
  cases r with
  | error e => simpa [onTtsAudioReady] using h3
  | ok ph => simp [onTtsAudioReady, selectProvider, h]

/-- C10 (witness). -/
theorem C10_tier_switch_noop_witness :
    (initialService false).hasFallbackProvider = false
    ∧ selectProvider (useFallbackEstimation (initialService false))
        = SelectedProvider.primary :=
  ⟨rfl, (C10_tier_switch_noop (initialService false) rfl).2.2.2.2.1⟩

/-- C9: `easeInOutQuad` first clamps its argument to `[0,1]`, returns
`2t²` below `0.5` and `1 - (-2t+2)²/2` otherwise, maps `0 ↦ 0`, `1 ↦ 1`,
`0.5 ↦ 0.5`, is monotonically non-decreasing, and is continuous on
`[0,1]` (witnessed by the Lipschitz bound `|f a - f b| ≤ 2|a - b|`). -/
theorem C9_easeInOutQuad_spec :
    (∀ t, easeInOutQuad t = easeInOutQuad (clamp01 t))
    ∧ (∀ t, clamp01 t < 0.5 →
        easeInOutQuad t = 2 * clamp01 t * clamp01 t)
    ∧ (∀ t, ¬clamp01 t < 0.5 →
        easeInOutQuad t = 1 - (-2 * clamp01 t + 2) ^ 2 / 2)
    ∧ easeInOutQuad 0 = 0
    ∧ easeInOutQuad 1 = 1
    ∧ easeInOutQuad 0.5 = 0.5
    ∧ (∀ a b, a ≤ b → easeInOutQuad a ≤ easeInOutQuad b)
    ∧ (∀ a b, |easeInOutQuad a - easeInOutQuad b| ≤ 2 * |a - b|) := by
  refine ⟨easeInOutQuad_clamp, ?_, ?_, ?_, ?_, ?_,
    fun a b h => easeInOutQuad_mono h, ?_⟩
  · intro t h
    unfold easeInOutQuad
    dsimp only
    rw [if_pos h]
  · intro t h
    unfold easeInOutQuad
    dsimp only
    rw [if_neg h]
  · norm_num [easeInOutQuad, clamp01]
  · norm_num [easeInOutQuad, clamp01]
  · norm_num [easeInOutQuad, clamp01]
  · intro a b
    rcases le_total a b with h | h
    · have h1 := easeInOutQuad_mono h
      have h2 := easeInOutQuad_lip_of_le h
      rw [abs_sub_comm, abs_of_nonneg (sub_nonneg.mpr h1), abs_sub_comm a b,
        abs_of_nonneg (sub_nonneg.mpr h)]
      linarith
    · have h1 := easeInOutQuad_mono h
      have h2 := easeInOutQuad_lip_of_le h
      rw [abs_of_nonneg (sub_nonneg.mpr h1), abs_of_nonneg (sub_nonneg.mpr h)]
      linarith

/-- C9 (witness). -/
theorem C9_easeInOutQuad_spec_witness :
    easeInOutQuad 0.25 ≤ easeInOutQuad 0.75 :=
  C9_easeInOutQuad_spec.2.2.2.2.2.2.1 0.25 0.75 (by norm_num)

/-- C6 (counterexample): the claim fails on the code. With
`current.cheekPuffC = 0.01`, `target.cheekPuffC = 0.02` and the default
threshold `0.02`, the target cheek value is not above the threshold, so
one smoothing step (rate 1, dt 0.5) moves the cheek channel to `0.005`:
its distance to the target grows from `0.01` to `0.015` and the new value
leaves the closed interval `[0.01, 0.02]`. -/
theorem C6_counterexample :
    (smoothPoseToTarget ⟨0, 0, 0, 0, 0, 0, 0, 0, 0.01⟩
        ⟨0, 0, 0, 0, 0, 0, 0, 0, 0.02⟩ 1 0.5 none 0.02).cheekPuffC = 0.005
    ∧ |(0.005 : ℚ) - 0.02| > |(0.01 : ℚ) - 0.02|
    ∧ (0.005 : ℚ) < min (0.01 : ℚ) 0.02 := by
  refine ⟨?_, ?_, ?_⟩
  · norm_num [smoothPoseToTarget, lerp, clamp01]
  · rw [abs_of_neg (by norm_num), abs_of_neg (by norm_num)]
    norm_num
  · rw [min_eq_left (by norm_num : (0.01 : ℚ) ≤ 0.02)]
    norm_num

/-- C6 (amended): for `rate > 0`, `dt > 0`, one `smoothPoseToTarget` step
moves each of the eight non-cheek channels strictly closer to its target
channel (when not already converged) and never outside the closed
interval between its current and target values, for every `rate * dt`
including values above 1; the cheek channel obeys the same bound with
respect to its effective target — the target cheek value above the
neutral threshold, and `0` (at the effective decay rate, when positive)
otherwise. -/
theorem C6_converge_no_overshoot (current target : PhonemePose)
    (rate dt thr : ℚ) (decay : Option ℚ)
    (hrate : 0 < rate) (hdt : 0 < dt) (hdecay : 0 < decay.getD rate) :
    channelStep current.mouthOpenY target.mouthOpenY
      ((smoothPoseToTarget current target rate dt decay thr).mouthOpenY)
    ∧ channelStep current.jawOpen target.jawOpen
      ((smoothPoseToTarget current target rate dt decay thr).jawOpen)
    ∧ channelStep current.mouthForm target.mouthForm
      ((smoothPoseToTarget current target rate dt decay thr).mouthForm)
    ∧ channelStep current.mouthShrug target.mouthShrug
      ((smoothPoseToTarget current target rate dt decay thr).mouthShrug)
    ∧ channelStep current.mouthFunnel target.mouthFunnel
      ((smoothPoseToTarget current target rate dt decay thr).mouthFunnel)
    ∧ channelStep current.mouthPuckerWiden target.mouthPuckerWiden
      ((smoothPoseToTarget current target rate dt decay thr).mouthPuckerWiden)
    ∧ channelStep current.mouthPressLipOpen target.mouthPressLipOpen
      ((smoothPoseToTarget current target rate dt decay thr).mouthPressLipOpen)
    ∧ channelStep current.mouthX target.mouthX
      ((smoothPoseToTarget current target rate dt decay thr).mouthX)
    ∧ (thr < target.cheekPuffC → channelStep current.cheekPuffC target.cheekPuffC
      ((smoothPoseToTarget current target rate dt decay thr).cheekPuffC))
    ∧ (target.cheekPuffC ≤ thr → channelStep current.cheekPuffC 0
      ((smoothPoseToTarget current target rate dt decay thr).cheekPuffC)) := by
  have hf : 0 < rate * dt := mul_pos hrate hdt
  have hd : 0 < decay.getD rate * dt := mul_pos hdecay hdt
  refine ⟨lerp_channelStep hf, lerp_channelStep hf, lerp_channelStep hf,
    lerp_channelStep hf, lerp_channelStep hf, lerp_channelStep hf,
    lerp_channelStep hf, lerp_channelStep hf, fun h => ?_, fun h => ?_⟩
  · unfold smoothPoseToTarget
    dsimp only
    rw [if_pos h]
    exact lerp_channelStep hf
  · unfold smoothPoseToTarget
    dsimp only
    rw [if_neg (not_lt.mpr h)]
    exact lerp_channelStep hd

/-- C6 (witness). -/
theorem C6_converge_no_overshoot_witness :
    channelStep NEUTRAL_POSE.mouthOpenY
      (PhonemePose.mouthOpenY ⟨1, 0, 0, 0, 0, 0, 0, 0, 0⟩)
      ((smoothPoseToTarget NEUTRAL_POSE ⟨1, 0, 0, 0, 0, 0, 0, 0, 0⟩
        1 1 none 0.02).mouthOpenY) :=
  (C6_converge_no_overshoot NEUTRAL_POSE ⟨1, 0, 0, 0, 0, 0, 0, 0, 0⟩ 1 1
    0.02 none (by norm_num) (by norm_num) (by norm_num [Option.getD])).1

/-- C2: the per-tick target pose follows the phoneme-window rule on
well-formed sequences: neutral before the first phoneme's start; the last
phoneme's table pose verbatim at or after the final phoneme's end; and
inside phoneme `i` or in the gap after it, the pose of `i` blended toward
the pose of `i+1` with factor `easeInOutQuad((elapsed - cur.startTime) /
(next.startTime - cur.startTime))`; in particular for
`[{m,0,0.1},{i,0.1,0.25}]` the factor at elapsed `0.05` is
`easeInOutQuad(0.5)` and at elapsed `0.3` the target is exactly the `i`
pose. -/
theorem C2_target_pose_window :
    (∀ (first : TimedPhoneme) (rest : List TimedPhoneme) (ct : ℚ),
      ct < first.startTime →
      calculateTargetPoseAt ct (first :: rest) = NEUTRAL_POSE)
    ∧ (∀ (l₁ : List TimedPhoneme) (lastP : TimedPhoneme) (ct : ℚ),
      seqWFb (l₁ ++ [lastP]) = true → lastP.endTime ≤ ct →
      calculateTargetPoseAt ct (l₁ ++ [lastP])
        = getPoseForPhoneme lastP.phoneme)
    ∧ (∀ (l₁ : List TimedPhoneme) (cur nxt : TimedPhoneme)
        (l₂ : List TimedPhoneme) (ct : ℚ),
      seqWFb (l₁ ++ cur :: nxt :: l₂) = true →
      cur.startTime ≤ ct → ct < nxt.startTime →
      calculateTargetPoseAt ct (l₁ ++ cur :: nxt :: l₂)
        = lerpPose (getPoseForPhoneme cur.phoneme)
            (getPoseForPhoneme nxt.phoneme)
            (easeInOutQuad
              ((ct - cur.startTime) / (nxt.startTime - cur.startTime))))
    ∧ calculateTargetPoseAt 0.05 [⟨"m", 0, 0.1⟩, ⟨"i", 0.1, 0.25⟩]
        = lerpPose (getPoseForPhoneme "m") (getPoseForPhoneme "i")
            (easeInOutQuad 0.5)
    ∧ calculateTargetPoseAt 0.3 [⟨"m", 0, 0.1⟩, ⟨"i", 0.1, 0.25⟩]
        = getPoseForPhoneme "i" := by
  refine ⟨?_, ?_, ?_, ?_, ?_⟩
  · intro first rest ct h
    have hfa : findActivePhonemes ct (first :: rest) = (none, some first) := by
      unfold findActivePhonemes findActiveAux
      rw [if_neg (fun hc => absurd hc.1 (not_le.mpr h)), if_pos h]
    unfold calculateTargetPoseAt
    rw [hfa]
  · intro l₁ lastP ct hwf hct
    have hlt : lastP.startTime < lastP.endTime :=
      wf_mem_lt _ hwf lastP (by simp)
    have hmem : ∀ p ∈ l₁ ++ [lastP], p.startTime ≤ ct ∧ p.endTime ≤ ct := by
      intro p hp
      rcases List.mem_append.mp hp with hp1 | hp2
      · have h1 : p.endTime ≤ lastP.startTime := wf_before l₁ lastP [] hwf p hp1
        have h2 : p.startTime < p.endTime :=
          wf_mem_lt _ hwf p (List.mem_append.mpr (Or.inl hp1))
        constructor <;> linarith
      · rcases List.mem_singleton.mp hp2 with rfl
        exact ⟨by linarith, hct⟩
    have hfa : findActivePhonemes ct (l₁ ++ [lastP]) = (some lastP, none) :=
      findActiveAux_skip l₁ none lastP hmem
    unfold calculateTargetPoseAt
    rw [hfa]
  · intro l₁ cur nxt l₂ ct hwf hcs hnxt
    have hmem : ∀ p ∈ l₁, p.startTime ≤ ct ∧ p.endTime ≤ ct := by
      intro p hp
      have h1 : p.endTime ≤ cur.startTime := wf_before l₁ cur (nxt :: l₂) hwf p hp
      have h2 : p.startTime < p.endTime := wf_mem_lt _ hwf p (by simp [hp])
      constructor <;> linarith
    have hfa : findActivePhonemes ct (l₁ ++ cur :: nxt :: l₂)
        = (some cur, some nxt) :=
      findActiveAux_middle l₁ none cur nxt l₂ hmem hcs hnxt
    unfold calculateTargetPoseAt
    rw [hfa]
  · have hfa : findActivePhonemes 0.05 [⟨"m", 0, 0.1⟩, ⟨"i", 0.1, 0.25⟩]
        = (some ⟨"m", 0, 0.1⟩, some ⟨"i", 0.1, 0.25⟩) := by
      norm_num [findActivePhonemes, findActiveAux]
    unfold calculateTargetPoseAt
    rw [hfa]
    norm_num
  · have hfa : findActivePhonemes 0.3 [⟨"m", 0, 0.1⟩, ⟨"i", 0.1, 0.25⟩]
        = (some ⟨"i", 0.1, 0.25⟩, none) := by
      norm_num [findActivePhonemes, findActiveAux]
    unfold calculateTargetPoseAt
    rw [hfa]

/-- C2 (witness). -/
theorem C2_target_pose_window_witness :
    calculateTargetPoseAt (-1) [⟨"m", 0, 0.1⟩] = NEUTRAL_POSE :=
  C2_target_pose_window.1 ⟨"m", 0, 0.1⟩ [] (-1) (by norm_num)

/-! Helper lemmas for the plugin frame callback. -/

lemma poseWrites_names (pose : PhonemePose) :
    ∀ w ∈ poseWrites pose, w.1 ∈ vbridgerParamNames := by
  intro w hw
  simp only [poseWrites, List.mem_cons, List.not_mem_nil, or_false] at hw
  rcases hw with rfl | rfl | rfl | rfl | rfl | rfl | rfl | rfl | rfl <;>
    simp [vbridgerParamNames]

lemma pluginFrame_no_requests (p : PluginState) (ctx : FrameCtx)
    (inp : FrameInputs) :
    (pluginFrame p ctx inp).2.markHandledCalled = false ∧
    (pluginFrame p ctx inp).2.stopAllMotionsCalled = false := by
  unfold pluginFrame
  dsimp only
  split_ifs <;> exact ⟨rfl, rfl⟩

lemma pluginFrame_writes_shape (p : PluginState) (ctx : FrameCtx)
    (inp : FrameInputs) :
    (pluginFrame p ctx inp).2.writes = [] ∨
    (isActive p.service = true ∧
      (pluginFrame p ctx inp).2.writes
        = poseWrites ((pluginFrame p ctx inp).1.service.currentPose)) := by
  unfold pluginFrame
  dsimp only
  split_ifs <;>
    first
      | exact Or.inl rfl
      | exact Or.inr ⟨by assumption, rfl⟩

/-- C4 (counterexample): the claim fails on the code. On a frame where
the engine is Playing (isActive is true), the adapter does write the
mouth channels, yet it makes no request for the host's own motion to
cease driving them for that tick: neither `markHandled` nor
`motionManager.stopAllMotions` is called — the code instead relies on
overwriting the nine parameters after host motion in the post phase. -/
theorem C4_counterexample :
    isActive ({ initialService false with
        playbackState := some ⟨true, 0, 0.25, []⟩ } : ServiceState) = true
    ∧ ((pluginFrame
        { service := { initialService false with
            playbackState := some ⟨true, 0, 0.25, []⟩ }
          lastTtsText := "hi", lastTtsAudioDuration := 0.25
          lastTtsIsPlaying := true, audioReady := true, lastUpdateTime := 1 }
        { now := 2, perfNow := 100, handled := false, isIdleMotion := false }
        { ttsText := "hi", ttsAudioDuration := 0.25
          ttsIsPlaying := true, enabled := true }).2).writes ≠ []
    ∧ ((pluginFrame
        { service := { initialService false with
            playbackState := some ⟨true, 0, 0.25, []⟩ }
          lastTtsText := "hi", lastTtsAudioDuration := 0.25
          lastTtsIsPlaying := true, audioReady := true, lastUpdateTime := 1 }
        { now := 2, perfNow := 100, handled := false, isIdleMotion := false }
        { ttsText := "hi", ttsAudioDuration := 0.25
          ttsIsPlaying := true, enabled := true }).2).markHandledCalled = false
    ∧ ((pluginFrame
        { service := { initialService false with
            playbackState := some ⟨true, 0, 0.25, []⟩ }
          lastTtsText := "hi", lastTtsAudioDuration := 0.25
          lastTtsIsPlaying := true, audioReady := true, lastUpdateTime := 1 }
        { now := 2, perfNow := 100, handled := false, isIdleMotion := false }
        { ttsText := "hi", ttsAudioDuration := 0.25
          ttsIsPlaying := true, enabled := true }).2).stopAllMotionsCalled
        = false := by
  refine ⟨rfl, ?_, (pluginFrame_no_requests _ _ _).1,
    (pluginFrame_no_requests _ _ _).2⟩
  unfold pluginFrame
  dsimp only
  rw [if_neg (by simp), if_neg (by simp [isActive]), if_pos (by simp [isActive])]
  simp [poseWrites]

/-- C4 (amended): on every adapter frame only the nine mouth channels are
ever written and never any other model parameter; when the engine is not
Playing at the frame's start the adapter writes no pose values at all;
but when Playing the adapter does not request that host motion cease — it
never calls `markHandled` or `stopAllMotions` on any frame, relying on
post-phase overwriting instead. -/
theorem C4_frame_writes (p : PluginState) (ctx : FrameCtx)
    (inp : FrameInputs) :
    (∀ w ∈ (pluginFrame p ctx inp).2.writes, w.1 ∈ vbridgerParamNames)
    ∧ (isActive p.service = false → (pluginFrame p ctx inp).2.writes = [])
    ∧ (pluginFrame p ctx inp).2.markHandledCalled = false
    ∧ (pluginFrame p ctx inp).2.stopAllMotionsCalled = false := by
  obtain h | ⟨hact, heq⟩ := pluginFrame_writes_shape p ctx inp
  · refine ⟨?_, fun _ => h, (pluginFrame_no_requests p ctx inp).1,
      (pluginFrame_no_requests p ctx inp).2⟩
    rw [h]
    intro w hw
    cases hw
  · refine ⟨by rw [heq]; exact poseWrites_names _, fun hfalse => ?_,
      (pluginFrame_no_requests p ctx inp).1,
      (pluginFrame_no_requests p ctx inp).2⟩
    rw [hfalse] at hact
    simp at hact

/-- C4 (witness). -/
theorem C4_frame_writes_witness :
    (pluginFrame
      { service := initialService false, lastTtsText := ""
        lastTtsAudioDuration := 0, lastTtsIsPlaying := false
        audioReady := false, lastUpdateTime := 0 }
      { now := 0.016, perfNow := 16, handled := false, isIdleMotion := true }
      { ttsText := "", ttsAudioDuration := 0, ttsIsPlaying := false
        enabled := true }).2.writes = [] :=
  (C4_frame_writes _ _ _).2.1 rfl

end VBridger
